import Mathlib

/-!
Verification of the ant-colony simulation engine (packages/nextjs/app/page.tsx
and the discrete-grid variant).  The logic tick, directive handling and map
parsing are embedded over exact rationals; the continuous steering physics is
embedded over the reals.  Distance comparisons `vec2.distance a b < r` from the
source are embedded as `distSq a b < r ^ 2`, which is equivalent for `0 ≤ r`.
-/

namespace Ants

/-- Continuous 2D position in world space (source: interface Vec2). -/
structure Vec2 where
  x : ℚ
  y : ℚ
deriving DecidableEq

/-- Source: vec2.add. -/
def vec2Add (a b : Vec2) : Vec2 := ⟨a.x + b.x, a.y + b.y⟩

/-- Source: vec2.sub. -/
def vec2Sub (a b : Vec2) : Vec2 := ⟨a.x - b.x, a.y - b.y⟩

/-- Source: vec2.scale. -/
def vec2Scale (v : Vec2) (s : ℚ) : Vec2 := ⟨v.x * s, v.y * s⟩

/-- Squared Euclidean distance.  The source's vec2.distance is the square
root of this; every comparison `distance a b < r` of the logic tick is
embedded as `distSq a b < r ^ 2` (equivalent since both sides are
nonnegative). -/
def distSq (a b : Vec2) : ℚ := (a.x - b.x) ^ 2 + (a.y - b.y) ^ 2

-- Constants (source: the CONSTANTS block of page.tsx).

def MAP_SIZE : ℤ := 20

def WORLD_SIZE : ℚ := 20

def ANT_MAX_SPEED : ℚ := 0.024

def ANT_MAX_FORCE : ℚ := 0.0012

def TRAIL_SAMPLE_INTERVAL : ℚ := 100

def TRAIL_MAX_LENGTH : ℕ := 150

def PHEROMONE_DECAY : ℚ := 0.002

def PHEROMONE_DEPOSIT_RATE : ℚ := 0.15

def MAX_ANTS : ℕ := 15

def INITIAL_ANTS : ℕ := 1

def INITIAL_FOOD : ℤ := 5

def WIN_FOOD : ℤ := 30

def STARVATION_TICKS : ℤ := 300

def MIN_ANTS_TO_SURVIVE : ℕ := 1

def SPAWN_FOOD_COST : ℤ := 5

def ANT_COLORS : List String :=
  ["#FF6B6B", "#4ECDC4", "#45B7D1", "#96CEB4", "#FFEAA7", "#DDA0DD", "#98D8C8",
   "#F7DC6F", "#BB8FCE", "#85C1E9", "#F8B500", "#00CED1", "#FF69B4", "#7FFF00",
   "#FF4500"]

/-- Source: type TileType. -/
inductive TileType
  | ground
  | border
  | food
  | spider
  | nest
deriving DecidableEq

/-- Source: type AntState. -/
inductive AntState
  | explore
  | «return»
  | harvest
  | defend
deriving DecidableEq

/-- Source: type GlobalDirective. -/
inductive GlobalDirective
  | explore
  | harvest
  | defend
deriving DecidableEq

/-- An ant's state literal for a directive (the JS code stores the directive
string directly into ant.state). -/
def GlobalDirective.toAntState : GlobalDirective → AntState
  | .explore => .explore
  | .harvest => .harvest
  | .defend => .defend

/-- Source: the payload of Ant.carriedInfo ("food" | "danger" | null embeds as
Option CarriedInfo). -/
inductive CarriedInfo
  | food
  | danger
deriving DecidableEq

/-- Source: interface Tile. -/
structure Tile where
  type : TileType
  homePheromone : ℚ
  foodPheromone : ℚ
  revealed : Bool
deriving DecidableEq

/-- The map Tile[][] of the source, embedded as a function from (row, column)
to Tile; map[ty][tx] reads as `g ty tx`.  All reads and writes the source
performs are guarded to 0 ≤ tx,ty < MAP_SIZE, so cells outside that square are
never observed. -/
def Grid := ℤ → ℤ → Tile

/-- Pointwise functional update of one cell (JS mutates newMap[y][x] in
place). -/
def updateCell (g : Grid) (y x : ℤ) (f : Tile → Tile) : Grid :=
  fun y' x' => if y' = y ∧ x' = x then f (g y' x') else g y' x'

/-- Source: interface Ant (page.tsx). -/
structure Ant where
  id : ℕ
  pos : Vec2
  velocity : Vec2
  state : AntState
  carriedInfo : Option CarriedInfo
  trail : List Vec2
  isAlive : Bool
  wanderAngle : ℚ
  color : String
  lastTrailSample : ℚ
deriving DecidableEq

/-- Source: interface GameState (page.tsx). -/
structure GameState where
  map : Grid
  ants : List Ant
  directive : GlobalDirective
  food : ℤ
  maxFood : ℤ
  tick : ℕ
  gameOver : Bool
  won : Bool
  ticksSinceLastFood : ℤ
  nestPos : Vec2
  antIdCounter : ℕ

/-- Create a new ant at the nest (source: createAnt).  The source draws a
uniformly random angle and sets velocity = vec2.fromAngle(angle,
ANT_MAX_SPEED * 0.5) with cos/sin, and lastTrailSample = Date.now(); the
drawn angle, its direction vector (cos angle, sin angle) and the clock value
are passed in as parameters angle, dir, now. -/
def createAnt (nestPos : Vec2) (id : ℕ) (angle : ℚ) (dir : Vec2) (now : ℚ) : Ant :=
  { id := id
    pos := nestPos
    velocity := vec2Scale dir (ANT_MAX_SPEED * 0.5)
    state := .explore
    carriedInfo := none
    trail := [nestPos]
    isAlive := true
    wanderAngle := angle
    color := ANT_COLORS.getD (id % ANT_COLORS.length) ""
    lastTrailSample := now }

/-- Get tile at continuous position (source: getTileAt). -/
def getTileAt (map : Grid) (pos : Vec2) : Option Tile :=
  let tx := ⌊pos.x⌋
  let ty := ⌊pos.y⌋
  if tx < 0 ∨ tx ≥ MAP_SIZE ∨ ty < 0 ∨ ty ≥ MAP_SIZE then none
  else some (map ty tx)

/-- The two pheromone channels (source: the "food" | "home" string argument of
samplePheromone). -/
inductive PherType
  | food
  | home
deriving DecidableEq

/-- Channel projection of a tile (source: the body of getValue in
samplePheromone). -/
def pherValue (t : Tile) : PherType → ℚ
  | .food => t.foodPheromone
  | .home => t.homePheromone

/-- One corner value of the bilinear interpolation (source: the getValue
closure of samplePheromone): out-of-bounds corners contribute 0. -/
def sampleCorner (map : Grid) (type : PherType) (tx ty : ℤ) : ℚ :=
  if tx < 0 ∨ tx ≥ MAP_SIZE ∨ ty < 0 ∨ ty ≥ MAP_SIZE then 0
  else pherValue (map ty tx) type

/-- Bilinear pheromone sampling for smooth gradients (source:
samplePheromone). -/
def samplePheromone (map : Grid) (pos : Vec2) (type : PherType) : ℚ :=
  let x := pos.x - 0.5
  let y := pos.y - 0.5
  let x0 := ⌊x⌋
  let y0 := ⌊y⌋
  let x1 := x0 + 1
  let y1 := y0 + 1
  let fx : ℚ := x - x0
  let fy : ℚ := y - y0
  let v00 := sampleCorner map type x0 y0
  let v10 := sampleCorner map type x1 y0
  let v01 := sampleCorner map type x0 y1
  let v11 := sampleCorner map type x1 y1
  v00 * (1 - fx) * (1 - fy) + v10 * fx * (1 - fy) + v01 * (1 - fx) * fy + v11 * fx * fy

-- The game logic tick (source: gameTick, page.tsx lines 900..1032).

/-- Pheromone decay of one tile (source: the map over prev.map opening
gameTick). -/
def decayTile (t : Tile) : Tile :=
  { t with
    homePheromone := max 0 (t.homePheromone - PHEROMONE_DECAY)
    foodPheromone := max 0 (t.foodPheromone - PHEROMONE_DECAY) }

/-- Decay applied to every cell. -/
def decayMap (g : Grid) : Grid := fun y x => decayTile (g y x)

/-- The 5x5 offset square the nest loops iterate over: dy outer from -2 to 2,
dx inner from -2 to 2, listed as (dy, dx). -/
def nestOffsets : List (ℤ × ℤ) :=
  (List.range 5).flatMap fun dy => (List.range 5).map fun dx => ((dy : ℤ) - 2, (dx : ℤ) - 2)

/-- Source: the "Reinforce nest area" loop of gameTick. -/
def reinforceTile (c : ℚ) (t : Tile) : Tile :=
  { t with homePheromone := max t.homePheromone c }

/-- One iteration of the reinforcement loop at offset d = (dy, dx). -/
def reinforceStep (nestX nestY : ℤ) (g : Grid) (d : ℤ × ℤ) : Grid :=
  let ny := nestY + d.1
  let nx := nestX + d.2
  if 0 ≤ nx ∧ nx < MAP_SIZE ∧ 0 ≤ ny ∧ ny < MAP_SIZE then
    updateCell g ny nx (reinforceTile (0.8 - (|d.2| : ℚ) * 0.15 - (|d.1| : ℚ) * 0.15))
  else g

/-- Keep the nest area's home pheromone strong (source: the nested dy/dx loop
of gameTick). -/
def reinforceNest (g : Grid) (nestPos : Vec2) : Grid :=
  nestOffsets.foldl (reinforceStep ⌊nestPos.x⌋ ⌊nestPos.y⌋) g

/-- Ambient food-pheromone deposit of a carrying ant (source: gameTick's
"Deposit pheromones" block). -/
def depositFood (t : Tile) : Tile :=
  { t with foodPheromone := min 1 (t.foodPheromone + PHEROMONE_DEPOSIT_RATE) }

/-- Ambient home-pheromone deposit of every ant (source: same block). -/
def depositHome (t : Tile) : Tile :=
  { t with homePheromone := min 1 (t.homePheromone + PHEROMONE_DEPOSIT_RATE * 0.3) }

/-- Hard marker at a discovered food source (source: the food-pickup branch,
foodPheromone = 1). -/
def markFoodSource (t : Tile) : Tile :=
  { t with foodPheromone := 1 }

/-- Source: the trail-reveal loop of the delivery branch. -/
def revealTile (t : Tile) : Tile :=
  { t with revealed := true }

/-- Reveal every in-bounds tile of a delivered trail. -/
def revealTrail (g : Grid) (trail : List Vec2) : Grid :=
  trail.foldl
    (fun g p =>
      let tx := ⌊p.x⌋
      let ty := ⌊p.y⌋
      if 0 ≤ tx ∧ tx < MAP_SIZE ∧ 0 ≤ ty ∧ ty < MAP_SIZE then
        updateCell g ty tx revealTile
      else g)
    g

/-- The mutable locals of gameTick's ant loop (JS closes over newMap, newFood
and ticksSinceLastFood and mutates them in place; they are threaded here). -/
structure TickAcc where
  map : Grid
  food : ℤ
  ticksSinceLastFood : ℤ

/-- One ant's logic-tick processing: the body of the prev.ants.map closure of
gameTick (page.tsx lines 933..993), in source order: skip dead ants, bail out
when the position has no tile, ambient pheromone deposits, spider death, food
pickup, delivery at the nest, and the non-carrying returner reaching the nest.
The pickup/delivery/returner guards test the pre-tick ant fields exactly as
the JS closure reads `ant` while writing `newAnt`. -/
def processAnt (nestPos : Vec2) (directive : GlobalDirective) (acc : TickAcc) (ant : Ant) :
    TickAcc × Ant :=
  if ant.isAlive = false then (acc, ant)
  else
    match getTileAt acc.map ant.pos with
    | none => (acc, ant)
    | some tile =>
      let tx := ⌊ant.pos.x⌋
      let ty := ⌊ant.pos.y⌋
      let m1 : Grid :=
        if 0 ≤ tx ∧ tx < MAP_SIZE ∧ 0 ≤ ty ∧ ty < MAP_SIZE then
          let mf := if ant.carriedInfo = some CarriedInfo.food then
              updateCell acc.map ty tx depositFood
            else acc.map
          updateCell mf ty tx depositHome
        else acc.map
      if tile.type = TileType.spider then
        ({ acc with map := m1 }, { ant with isAlive := false })
      else
        let pickup := tile.type = TileType.food ∧ ant.carriedInfo = none ∧
          (ant.state = AntState.explore ∨ ant.state = AntState.harvest)
        let m2 := if pickup then updateCell m1 ty tx markFoodSource else m1
        let a2 : Ant := if pickup then
            { ant with carriedInfo := some CarriedInfo.food, state := AntState.«return» }
          else ant
        let deliver := distSq ant.pos nestPos < 1 ∧ ant.carriedInfo = some CarriedInfo.food
        let m3 := if deliver then revealTrail m2 ant.trail else m2
        let food2 := if deliver then acc.food + 1 else acc.food
        let ticks2 := if deliver then 0 else acc.ticksSinceLastFood
        let a3 : Ant := if deliver then
            { a2 with
              carriedInfo := none
              trail := [nestPos]
              state := if directive = GlobalDirective.defend then AntState.defend
                else if directive = GlobalDirective.harvest then AntState.harvest
                else AntState.explore }
          else a2
        let rest := distSq ant.pos nestPos < 1 ∧ ant.carriedInfo = none ∧
          ant.state = AntState.«return»
        let a4 : Ant := if rest then
            { a3 with trail := [nestPos], state := directive.toAntState }
          else a3
        ({ map := m3, food := food2, ticksSinceLastFood := ticks2 }, a4)

/-- Process the ant list in order, threading the tick's mutable locals. -/
def tickAnts (nestPos : Vec2) (directive : GlobalDirective) (acc : TickAcc) :
    List Ant → TickAcc × List Ant
  | [] => (acc, [])
  | a :: rest =>
    let pa := processAnt nestPos directive acc a
    let pr := tickAnts nestPos directive pa.1 rest
    (pr.1, pa.2 :: pr.2)

/-- Decay, nest reinforcement and the per-ant loop of one game tick; food
starts at prev.food and ticksSinceLastFood at prev.ticksSinceLastFood + 1,
exactly as gameTick initializes its locals. -/
def tickCore (prev : GameState) : TickAcc × List Ant :=
  let m1 := reinforceNest (decayMap prev.map) prev.nestPos
  tickAnts prev.nestPos prev.directive
    { map := m1, food := prev.food, ticksSinceLastFood := prev.ticksSinceLastFood + 1 }
    prev.ants

/-- The products of the random draws and the Date.now() reading a tick's
spawned ant would use (source: createAnt's Math.random() angle). -/
structure TickRnd where
  spawnAngle : ℚ
  spawnDir : Vec2
  now : ℚ

/-- One game logic tick (source: gameTick, page.tsx lines 900..1032): no-op
once the game is over; otherwise pheromone decay, nest reinforcement, per-ant
resolution, spawning, then the win/lose evaluation in priority order. -/
def gameTick (prev : GameState) (rnd : TickRnd) : GameState :=
  if prev.gameOver = true then prev
  else
    let core := tickCore prev
    let acc := core.1
    let newAnts := core.2
    let aliveAnts := newAnts.filter (fun a => a.isAlive)
    let doSpawn := acc.food ≥ SPAWN_FOOD_COST ∧ aliveAnts.length < MAX_ANTS
    let newFood := if doSpawn then acc.food - SPAWN_FOOD_COST else acc.food
    let antIdCounter := if doSpawn then prev.antIdCounter + 1 else prev.antIdCounter
    let allAnts := newAnts ++
      (if doSpawn then [createAnt prev.nestPos prev.antIdCounter rnd.spawnAngle rnd.spawnDir rnd.now]
       else [])
    let finalAliveAnts := allAnts.filter (fun a => a.isAlive)
    let gmOver : Bool :=
      if newFood ≥ WIN_FOOD then true
      else if finalAliveAnts.length < MIN_ANTS_TO_SURVIVE then true
      else if acc.ticksSinceLastFood > STARVATION_TICKS then true
      else false
    let wn : Bool := if newFood ≥ WIN_FOOD then true else false
    { prev with
      map := acc.map
      ants := allAnts
      food := newFood
      tick := prev.tick + 1
      gameOver := gmOver
      won := wn
      ticksSinceLastFood := acc.ticksSinceLastFood
      antIdCounter := antIdCounter }

/-- Directive change (source: setDirective, page.tsx lines 1081..1093): every
ant whose state is not "return" takes the new directive as its state; ants in
"return" keep it. -/
def setDirective (prev : GameState) (directive : GlobalDirective) : GameState :=
  { prev with
    directive := directive
    ants := prev.ants.map fun ant =>
      { ant with
        state := if ant.state = AntState.«return» then AntState.«return»
          else directive.toAntState } }

/-- The spawn-state selection of the discrete-grid variant (source:
src/unnamed/part_000, gameTick lines 559..575: the spawned ant's state is
"defend" when the directive is defend, else "explore"). -/
def spawnStateD (directive : GlobalDirective) : AntState :=
  if directive = GlobalDirective.defend then AntState.defend else AntState.explore

-- Map parsing and the initial state (source: MAP_TEMPLATE, parseMapTemplate
-- and initGame of page.tsx).

def MAP_TEMPLATE : List String :=
  ["🟫🟫🟫🟫🟫🟫🟫🟫🟫🟫🟫🟫🟫🟫🟫🟫🟫🟫🟫🟫",
   "🟫..............F...🟫",
   "🟫......F.....S.....🟫",
   "🟫..................🟫",
   "🟫..............F...🟫",
   "🟫..................🟫",
   "🟫..................🟫",
   "🟫...S..............🟫",
   "🟫..................🟫",
   "🟫.........N........🟫",
   "🟫..................🟫",
   "🟫..................🟫",
   "🟫.......F..........🟫",
   "🟫..................🟫",
   "🟫..................🟫",
   "🟫............S.....🟫",
   "🟫..................🟫",
   "🟫..F...............🟫",
   "🟫..................🟫",
   "🟫🟫🟫🟫🟫🟫🟫🟫🟫🟫🟫🟫🟫🟫🟫🟫🟫🟫🟫🟫"]

/-- The tile type a template symbol stands for (source: the char tests of
parseMapTemplate; the source advances charIndex by 2 on the emoji because JS
strings are UTF-16, which a list of characters makes implicit). -/
def charType (c : Char) : TileType :=
  if c = '🟫' then TileType.border
  else if c = 'F' then TileType.food
  else if c = 'S' then TileType.spider
  else if c = 'N' then TileType.nest
  else TileType.ground

/-- One template row parsed to exactly n tile types: the source's first while
loop consumes symbols while x < MAP_SIZE and characters remain, and the second
fills the remainder of the row with ground. -/
def parseRowTypes : List Char → ℕ → List TileType
  | _, 0 => []
  | [], n + 1 => TileType.ground :: parseRowTypes [] n
  | c :: cs, n + 1 => charType c :: parseRowTypes cs n

/-- The parsed 20x20 tile-type layout. -/
def parsedTypes : List (List TileType) :=
  MAP_TEMPLATE.map fun row => parseRowTypes row.data MAP_SIZE.toNat

/-- A freshly parsed tile (source: the tile literal of parseMapTemplate):
home pheromone 1 on the nest, revealed on nest and border. -/
def initTile (ty : TileType) : Tile :=
  { type := ty
    homePheromone := if ty = TileType.nest then 1 else 0
    foodPheromone := 0
    revealed := if ty = TileType.nest ∨ ty = TileType.border then true else false }

/-- The fill tile of the template's padding loop. -/
def defaultTile : Tile := initTile TileType.ground

/-- The parsed rows as a Grid; cells outside the written square (never read by
the guarded source accesses) hold the padding tile. -/
def gridOfTypes (rows : List (List TileType)) : Grid := fun y x =>
  if 0 ≤ y ∧ 0 ≤ x then
    match rows.get? y.toNat with
    | some r =>
      match r.get? x.toNat with
      | some ty => initTile ty
      | none => defaultTile
    | none => defaultTile
  else defaultTile

/-- The nest position the template scan finds: the center (x + 0.5, y + 0.5)
of the last 'N' cell, defaulting to (10.5, 9.5). -/
def findNest (rows : List (List TileType)) : Vec2 :=
  rows.enum.foldl
    (fun acc yr =>
      yr.2.enum.foldl
        (fun acc2 xc =>
          if xc.2 = TileType.nest then ⟨(xc.1 : ℚ) + 0.5, (yr.1 : ℚ) + 0.5⟩ else acc2)
        acc)
    ⟨10.5, 9.5⟩

/-- Source: the "Reveal area around nest" loop of parseMapTemplate — the 5x5
square around the nest is revealed and its home pheromone overwritten with
max(0.3, 1 - |dx| * 0.2 - |dy| * 0.2). -/
def revealNestArea (g : Grid) (nestPos : Vec2) : Grid :=
  nestOffsets.foldl
    (fun g d =>
      let ny := ⌊nestPos.y⌋ + d.1
      let nx := ⌊nestPos.x⌋ + d.2
      if 0 ≤ nx ∧ nx < MAP_SIZE ∧ 0 ≤ ny ∧ ny < MAP_SIZE then
        updateCell g ny nx fun t =>
          { t with
            revealed := true
            homePheromone := max 0.3 (1 - (|d.2| : ℚ) * 0.2 - (|d.1| : ℚ) * 0.2) }
      else g)
    g

/-- Source: parseMapTemplate. -/
def parseMapTemplate : Grid × Vec2 :=
  let nestPos := findNest parsedTypes
  (revealNestArea (gridOfTypes parsedTypes) nestPos, nestPos)

/-- The initial game state (source: initGame).  The INITIAL_ANTS starting
ants' random draws and clock reading enter as parameters, as in createAnt. -/
def initGame (angle : ℚ) (dir : Vec2) (now : ℚ) : GameState :=
  let parsed := parseMapTemplate
  { map := parsed.1
    ants := (List.range INITIAL_ANTS).map fun i => createAnt parsed.2 i angle dir now
    directive := GlobalDirective.explore
    food := INITIAL_FOOD
    maxFood := WIN_FOOD
    tick := 0
    gameOver := false
    won := false
    ticksSinceLastFood := 0
    nestPos := parsed.2
    antIdCounter := INITIAL_ANTS }

/-- The states the simulation can reach from a fresh game.  Beside the logic
tick, the only mutations of GameState in the source are updatePhysics (which
returns { ...state, ants: newAnts }) and setDirective (which returns
{ ...state, directive, ants }); neither touches the grid or the economy
fields, so both are covered by the `ui` constructor, which replaces the ant
list and the directive arbitrarily. -/
inductive Reachable : GameState → Prop
  | init (angle : ℚ) (dir : Vec2) (now : ℚ) : Reachable (initGame angle dir now)
  | tick {s : GameState} (rnd : TickRnd) : Reachable s → Reachable (gameTick s rnd)
  | ui {s : GameState} (ants : List Ant) (d : GlobalDirective) :
      Reachable s → Reachable { s with ants := ants, directive := d }

-- ---------------------------------------------------------------------------
-- The continuous steering physics (source: vec2, steer and updatePhysics of
-- page.tsx), embedded over the reals since vec2.length takes a square root.
-- ---------------------------------------------------------------------------

/-- Vec2 over the reals, for the physics pass. -/
structure Vec2R where
  x : ℝ
  y : ℝ

noncomputable section

/-- Source: vec2.add. -/
def addR (a b : Vec2R) : Vec2R := ⟨a.x + b.x, a.y + b.y⟩

/-- Source: vec2.sub. -/
def subR (a b : Vec2R) : Vec2R := ⟨a.x - b.x, a.y - b.y⟩

/-- Source: vec2.scale. -/
def scaleR (v : Vec2R) (s : ℝ) : Vec2R := ⟨v.x * s, v.y * s⟩

/-- Source: vec2.length. -/
def lengthR (v : Vec2R) : ℝ := Real.sqrt (v.x * v.x + v.y * v.y)

/-- Source: vec2.normalize — v scaled to unit length, or zero when the length
is not positive. -/
def normalizeR (v : Vec2R) : Vec2R :=
  if lengthR v > 0 then ⟨v.x / lengthR v, v.y / lengthR v⟩ else ⟨0, 0⟩

/-- Source: vec2.limit — clamp a vector to a maximum magnitude. -/
def limitR (v : Vec2R) (m : ℝ) : Vec2R :=
  if lengthR v > m then scaleR (normalizeR v) m else v

/-- An ant of the physics pass, the Ant interface over the reals. -/
structure AntR where
  id : ℕ
  pos : Vec2R
  velocity : Vec2R
  state : AntState
  carriedInfo : Option CarriedInfo
  trail : List Vec2R
  isAlive : Bool
  wanderAngle : ℝ
  color : String
  lastTrailSample : ℝ

/-- Source: steer.seek — the desired velocity toward the target at full speed,
minus the current velocity, clamped to ANT_MAX_FORCE, then scaled by the
weight. -/
def seek (ant : AntR) (target : Vec2R) (weight : ℝ) : Vec2R :=
  let desired := subR target ant.pos
  let desiredNorm := scaleR (normalizeR desired) ((ANT_MAX_SPEED : ℚ) : ℝ)
  let steerForce := subR desiredNorm ant.velocity
  scaleR (limitR steerForce ((ANT_MAX_FORCE : ℚ) : ℝ)) weight

/-- The seek contribution as the specification's claim words it, with no
per-contribution clamp: desired velocity minus current velocity, scaled by the
weight.  Named from the claim, for comparison with the source's seek. -/
def seekUnclamped (ant : AntR) (target : Vec2R) (weight : ℝ) : Vec2R :=
  scaleR (subR (scaleR (normalizeR (subR target ant.pos)) ((ANT_MAX_SPEED : ℚ) : ℝ)) ant.velocity)
    weight

/-- Source: steer.avoidBorders — a repulsive force proportional to penetration
into the margin band at each world edge. -/
def avoidBorders (ant : AntR) (margin : ℝ := 1.5) : Vec2R :=
  let strength : ℝ := 0.02
  ⟨(if ant.pos.x < margin then strength * (margin - ant.pos.x) else 0) -
      (if ant.pos.x > ((WORLD_SIZE : ℚ) : ℝ) - margin then
        strength * (ant.pos.x - (((WORLD_SIZE : ℚ) : ℝ) - margin)) else 0),
    (if ant.pos.y < margin then strength * (margin - ant.pos.y) else 0) -
      (if ant.pos.y > ((WORLD_SIZE : ℚ) : ℝ) - margin then
        strength * (ant.pos.y - (((WORLD_SIZE : ℚ) : ℝ) - margin)) else 0)⟩

/-- One agent's physics update (source: the per-ant closure of updatePhysics,
page.tsx lines 782..891).  The state-dependent steering section (lines
788..864) accumulates forces that depend on random wander draws and the
pheromone field; its total enters here as stateForce and the wander angle it
leaves as newWanderAngle, while the tail of the closure (lines 866..891) is
embedded literally: add the border force, clamp the total once to
ANT_MAX_FORCE, integrate velocity clamped to ANT_MAX_SPEED, move, clamp the
position to the world band, and sample the trail when Date.now() (the `now`
parameter) has advanced past TRAIL_SAMPLE_INTERVAL. -/
def updatePhysicsAnt (ant : AntR) (stateForce : Vec2R) (newWanderAngle : ℝ) (now : ℝ) : AntR :=
  if ant.isAlive = false then ant
  else
    let totalForce := limitR (addR stateForce (avoidBorders ant)) ((ANT_MAX_FORCE : ℚ) : ℝ)
    let vel := limitR (addR ant.velocity totalForce) ((ANT_MAX_SPEED : ℚ) : ℝ)
    let moved := addR ant.pos vel
    let pos : Vec2R :=
      ⟨max 1.2 (min (((WORLD_SIZE : ℚ) : ℝ) - 1.2) moved.x),
        max 1.2 (min (((WORLD_SIZE : ℚ) : ℝ) - 1.2) moved.y)⟩
    let sample := now - ant.lastTrailSample > ((TRAIL_SAMPLE_INTERVAL : ℚ) : ℝ)
    let trail :=
      if sample then
        let t := ant.trail ++ [pos]
        if t.length > TRAIL_MAX_LENGTH then t.drop (t.length - TRAIL_MAX_LENGTH) else t
      else ant.trail
    { ant with
      wanderAngle := newWanderAngle
      velocity := vel
      pos := pos
      trail := trail
      lastTrailSample := if sample then now else ant.lastTrailSample }

/-- Source: getPheromoneGradient — central differences of the (exact,
rational) bilinear samples, passed through vec2.normalize over the reals. -/
def getPheromoneGradient (map : Grid) (pos : Vec2) (type : PherType) : Vec2R :=
  let delta : ℚ := 0.3
  let left := samplePheromone map ⟨pos.x - delta, pos.y⟩ type
  let right := samplePheromone map ⟨pos.x + delta, pos.y⟩ type
  let up := samplePheromone map ⟨pos.x, pos.y - delta⟩ type
  let down := samplePheromone map ⟨pos.x, pos.y + delta⟩ type
  normalizeR ⟨((right - left : ℚ) : ℝ), ((down - up : ℚ) : ℝ)⟩

end

-- ---------------------------------------------------------------------------
-- Invariant predicates and concrete inputs used by witnesses and
-- counterexamples.
-- ---------------------------------------------------------------------------

/-- Both pheromone channels of a tile lie in [0, 1]. -/
def pherBounded (t : Tile) : Prop :=
  0 ≤ t.homePheromone ∧ t.homePheromone ≤ 1 ∧ 0 ≤ t.foodPheromone ∧ t.foodPheromone ≤ 1

/-- Every cell's pheromone channels lie in [0, 1]. -/
def GridBounded (g : Grid) : Prop := ∀ y x : ℤ, pherBounded (g y x)

/-- An all-ground test grid. -/
def flatGrid : Grid := fun _ _ => defaultTile

/-- The nest center of the shipped map. -/
def cNest : Vec2 := ⟨10.5, 9.5⟩

/-- A fixed bundle of tick randomness for concrete runs. -/
def cRnd : TickRnd := { spawnAngle := 0, spawnDir := ⟨1, 0⟩, now := 0 }

/-- A live ant at the nest carrying food (mid-delivery). -/
def cDeliverAnt : Ant :=
  { id := 0, pos := cNest, velocity := ⟨0, 0⟩, state := AntState.«return»,
    carriedInfo := some CarriedInfo.food, trail := [⟨5.5, 5.5⟩, cNest],
    isAlive := true, wanderAngle := 0, color := "#FF6B6B", lastTrailSample := 0 }

/-- Tick-local accumulator for a concrete processAnt run. -/
def cAcc : TickAcc := { map := flatGrid, food := 2, ticksSinceLastFood := 7 }

/-- A live idle ant away from the nest, carrying nothing. -/
def cIdleAnt : Ant :=
  { id := 0, pos := ⟨5.5, 5.5⟩, velocity := ⟨0, 0⟩, state := AntState.defend,
    carriedInfo := none, trail := [⟨5.5, 5.5⟩],
    isAlive := true, wanderAngle := 0, color := "#FF6B6B", lastTrailSample := 0 }

/-- A running game under the Defend directive with exactly the spawn cost in
stock and one live ant: the next tick spawns. -/
def cSpawnState : GameState :=
  { map := flatGrid, ants := [cIdleAnt], directive := GlobalDirective.defend,
    food := 5, maxFood := WIN_FOOD, tick := 3, gameOver := false, won := false,
    ticksSinceLastFood := 7, nestPos := cNest, antIdCounter := 1 }

/-- A dead ant whose state is explore. -/
def cDeadAnt : Ant := { cIdleAnt with state := AntState.explore, isAlive := false }

/-- A game holding one dead ant. -/
def cDeadState : GameState := { cSpawnState with ants := [cDeadAnt], food := 0 }

/-- A finished game, for the terminal-tick witness. -/
def cOverState : GameState := { cSpawnState with gameOver := true, won := true }

/-- A grid whose only pheromone lives in the in-bounds boundary cell
(ty, tx) = (5, 0). -/
def cPherMap : Grid := fun y x =>
  if y = 5 ∧ x = 0 then
    { type := TileType.ground, homePheromone := 0, foodPheromone := 1, revealed := true }
  else defaultTile

/-- A live physics ant at rest at (2, 2). -/
noncomputable def cAntR : AntR :=
  { id := 0, pos := ⟨2, 2⟩, velocity := ⟨0, 0⟩, state := AntState.explore,
    carriedInfo := none, trail := [], isAlive := true, wanderAngle := 0,
    color := "#FF6B6B", lastTrailSample := 0 }

-- ---------------------------------------------------------------------------
-- Theorems.
-- ---------------------------------------------------------------------------

set_option maxRecDepth 100000

/-- C1: For every logic tick, an agent that is carrying a resource and is
within the arrival radius of the home position has the colony resource count
incremented by exactly 1, its carried slot reset to none, its
ticks-since-last-delivery counter reset, and its trail reset to a single entry
at the home position, all within that same logic tick.  Stated on processAnt,
the per-agent resolution step of the tick (the agent must be alive, stand on
an existing non-spider tile and hence survive the tick). -/
theorem C1_delivery_resolution (nestPos : Vec2) (directive : GlobalDirective)
    (acc : TickAcc) (ant : Ant) (tile : Tile)
    (halive : ant.isAlive = true)
    (hcarry : ant.carriedInfo = some CarriedInfo.food)
    (hnear : distSq ant.pos nestPos < 1)
    (htile : getTileAt acc.map ant.pos = some tile)
    (hspider : tile.type ≠ TileType.spider) :
    (processAnt nestPos directive acc ant).1.food = acc.food + 1 ∧
    (processAnt nestPos directive acc ant).1.ticksSinceLastFood = 0 ∧
    (processAnt nestPos directive acc ant).2.carriedInfo = none ∧
    (processAnt nestPos directive acc ant).2.trail = [nestPos] := by
  simp only [processAnt, halive, htile, hcarry, hspider]
  simp [hnear]

/-- Witness for C1 at a concrete carrying ant standing at the nest. -/
theorem C1_delivery_resolution_witness :
    (processAnt cNest GlobalDirective.explore cAcc cDeliverAnt).1.food = cAcc.food + 1 ∧
    (processAnt cNest GlobalDirective.explore cAcc cDeliverAnt).1.ticksSinceLastFood = 0 ∧
    (processAnt cNest GlobalDirective.explore cAcc cDeliverAnt).2.carriedInfo = none ∧
    (processAnt cNest GlobalDirective.explore cAcc cDeliverAnt).2.trail = [cNest] :=
  C1_delivery_resolution cNest GlobalDirective.explore cAcc cDeliverAnt defaultTile
    (by with_unfolding_all decide) (by with_unfolding_all decide)
    (by with_unfolding_all decide) (by with_unfolding_all decide)
    (by with_unfolding_all decide)

/-- C6: A directive change applies immediately to every agent whose state is
not Return (their state becomes the new directive), and never changes any
agent currently in Return: such an agent is left fully unchanged, so one
mid-delivery finishes its delivery before adopting the new directive. -/
theorem C6_directive_change (prev : GameState) (d : GlobalDirective) (i : ℕ) :
    (setDirective prev d).directive = d ∧
    ((setDirective prev d).ants[i]? = (prev.ants[i]?).map fun a =>
      { a with state := if a.state = AntState.«return» then AntState.«return»
          else d.toAntState }) ∧
    (∀ a, prev.ants[i]? = some a → a.state = AntState.«return» →
      (setDirective prev d).ants[i]? = some a) ∧
    (∀ a, prev.ants[i]? = some a → a.state ≠ AntState.«return» →
      ((setDirective prev d).ants[i]?).map Ant.state = some d.toAntState) := by
  refine ⟨rfl, ?_, ?_, ?_⟩
  · simp [setDirective]
  · intro a ha hret
    simp [setDirective, ha, hret]
    cases a
    simp_all
  · intro a ha hret
    simp only [setDirective, List.getElem?_map, ha, Option.map_some']
    simp [hret]

/-- Witness for C6: a directive change at a concrete one-ant game. -/
theorem C6_directive_change_witness :
    (setDirective cSpawnState GlobalDirective.harvest).directive = GlobalDirective.harvest ∧
    ((setDirective cSpawnState GlobalDirective.harvest).ants[0]?).map Ant.state =
      some AntState.harvest :=
  ⟨(C6_directive_change cSpawnState GlobalDirective.harvest 0).1,
    (C6_directive_change cSpawnState GlobalDirective.harvest 0).2.2.2 cIdleAnt
      (by with_unfolding_all decide) (by with_unfolding_all decide)⟩

/-- C2: Once the game is over the tick function returns the state unchanged;
in a non-terminal state the tick sets won exactly when the end-of-tick
resource count reaches the goal (so a tick in which a lose condition also
holds still resolves as a Win), and sets gameOver exactly when the win
condition, the survivor condition or the starvation condition fires. -/
theorem C2_win_priority (prev : GameState) (rnd : TickRnd) :
    (prev.gameOver = true → gameTick prev rnd = prev) ∧
    (prev.gameOver = false →
      ((gameTick prev rnd).won = true ↔ WIN_FOOD ≤ (gameTick prev rnd).food) ∧
      ((gameTick prev rnd).gameOver = true ↔
        (WIN_FOOD ≤ (gameTick prev rnd).food ∨
          ((gameTick prev rnd).ants.filter (fun a => a.isAlive)).length <
            MIN_ANTS_TO_SURVIVE ∨
          STARVATION_TICKS < (gameTick prev rnd).ticksSinceLastFood))) := by
  constructor
  · intro h
    simp [gameTick, h]
  · intro h
    simp only [gameTick, h, Bool.false_eq_true, if_false]
    set core := tickCore prev with hcore
    by_cases hspawn : core.1.food ≥ SPAWN_FOOD_COST ∧
        (core.2.filter (fun (a : Ant) => a.isAlive)).length < MAX_ANTS
    · simp only [hspawn, if_true, ite_true]
      by_cases h1 : WIN_FOOD ≤ core.1.food - SPAWN_FOOD_COST
      · simp [h1, ge_iff_le]
      · by_cases h2 : ((core.2 ++
            [createAnt prev.nestPos prev.antIdCounter rnd.spawnAngle rnd.spawnDir
              rnd.now]).filter (fun a => a.isAlive)).length < MIN_ANTS_TO_SURVIVE
        · simp [h1, h2, ge_iff_le]
        · by_cases h3 : STARVATION_TICKS < core.1.ticksSinceLastFood
          · simp [h1, h2, h3, ge_iff_le]
          · simp [h1, h2, h3, ge_iff_le]
    · simp only [hspawn, if_false, ite_false]
      by_cases h1 : WIN_FOOD ≤ core.1.food
      · simp [h1, ge_iff_le]
      · by_cases h2 : ((core.2 ++ []).filter (fun (a : Ant) => a.isAlive)).length <
            MIN_ANTS_TO_SURVIVE
        · simp [h1, h2, ge_iff_le]
        · by_cases h3 : STARVATION_TICKS < core.1.ticksSinceLastFood
          · simp [h1, h2, h3, ge_iff_le]
          · simp [h1, h2, h3, ge_iff_le]

/-- Witness for C2: a support of the terminal no-op at a finished game, and
the win iff at a running game whose tick gathers no food. -/
theorem C2_win_priority_witness :
    gameTick cOverState cRnd = cOverState ∧
    ((gameTick cSpawnState cRnd).won = true ↔
      WIN_FOOD ≤ (gameTick cSpawnState cRnd).food) :=
  ⟨(C2_win_priority cOverState cRnd).1 rfl,
    ((C2_win_priority cSpawnState cRnd).2 rfl).1⟩

/-- The per-agent step never lowers the tick's food counter. -/
theorem processAnt_food_le (nestPos : Vec2) (d : GlobalDirective) (acc : TickAcc) (ant : Ant) :
    acc.food ≤ (processAnt nestPos d acc ant).1.food := by
  unfold processAnt
  split
  · exact le_refl _
  · split
    · exact le_refl _
    · dsimp only
      split
      · exact le_refl _
      · dsimp only
        split
        · exact Int.le.intro 1 rfl
        · exact le_refl _

/-- The ant loop never lowers the tick's food counter. -/
theorem tickAnts_food_le (nestPos : Vec2) (d : GlobalDirective) :
    ∀ (l : List Ant) (acc : TickAcc), acc.food ≤ (tickAnts nestPos d acc l).1.food := by
  intro l
  induction l with
  | nil => intro acc; exact le_refl _
  | cons a rest ih =>
    intro acc
    exact le_trans (processAnt_food_le nestPos d acc a) (ih _)

/-- The per-agent step leaves a dead ant untouched. -/
theorem processAnt_dead (nestPos : Vec2) (d : GlobalDirective) (acc : TickAcc) (ant : Ant)
    (h : ant.isAlive = false) : processAnt nestPos d acc ant = (acc, ant) := by
  simp [processAnt, h]

/-- The ant loop preserves list length. -/
theorem tickAnts_length (nestPos : Vec2) (d : GlobalDirective) :
    ∀ (l : List Ant) (acc : TickAcc), (tickAnts nestPos d acc l).2.length = l.length := by
  intro l
  induction l with
  | nil => intro acc; rfl
  | cons a rest ih => intro acc; simp [tickAnts, ih]

/-- The ant loop keeps a dead ant unchanged at its position. -/
theorem tickAnts_get?_dead (nestPos : Vec2) (d : GlobalDirective) :
    ∀ (l : List Ant) (acc : TickAcc) (i : ℕ) (a : Ant),
      l[i]? = some a → a.isAlive = false →
      (tickAnts nestPos d acc l).2[i]? = some a := by
  intro l
  induction l with
  | nil => intro acc i a h; simp at h
  | cons b rest ih =>
    intro acc i a h hdead
    cases i with
    | zero =>
      simp at h
      subst h
      simp [tickAnts, processAnt_dead nestPos d _ _ hdead]
    | succ j =>
      simp at h
      simp [tickAnts]
      exact ih _ j a (by simpa using h) hdead

/-- C4 (amended): each logic tick, if the post-processing food stock is at
least the spawn cost and fewer than maxAgents ants are alive, exactly the
spawn cost is deducted and exactly one new agent is created at the home
position; in the continuous variant (page.tsx) the new agent's state is
always Explore regardless of the directive, while the discrete variant's
spawn state is Defend exactly when the directive is Defend. -/
theorem C4_spawn_amended (prev : GameState) (rnd : TickRnd)
    (hover : prev.gameOver = false)
    (hfood : SPAWN_FOOD_COST ≤ (tickCore prev).1.food)
    (halive : (((tickCore prev).2.filter (fun (a : Ant) => a.isAlive)).length < MAX_ANTS)) :
    (gameTick prev rnd).food = (tickCore prev).1.food - SPAWN_FOOD_COST ∧
    (gameTick prev rnd).ants = (tickCore prev).2 ++
      [createAnt prev.nestPos prev.antIdCounter rnd.spawnAngle rnd.spawnDir rnd.now] ∧
    (gameTick prev rnd).antIdCounter = prev.antIdCounter + 1 ∧
    (createAnt prev.nestPos prev.antIdCounter rnd.spawnAngle rnd.spawnDir rnd.now).pos =
      prev.nestPos ∧
    (createAnt prev.nestPos prev.antIdCounter rnd.spawnAngle rnd.spawnDir rnd.now).state =
      AntState.explore ∧
    (∀ d : GlobalDirective, spawnStateD d =
      if d = GlobalDirective.defend then AntState.defend else AntState.explore) := by
  have hcond : SPAWN_FOOD_COST ≤ (tickCore prev).1.food ∧
      (((tickCore prev).2.filter (fun (a : Ant) => a.isAlive)).length < MAX_ANTS) :=
    ⟨hfood, halive⟩
  refine ⟨?_, ?_, ?_, rfl, rfl, fun d => rfl⟩ <;>
    simp [gameTick, hover, ge_iff_le, hcond]

/-- Counterexample to C4 as stated: under the Defend directive the continuous
variant's tick spawns an ant whose state is Explore, not Defend. -/
theorem C4_spawn_state_counterexample :
    cSpawnState.directive = GlobalDirective.defend ∧
    cSpawnState.food = SPAWN_FOOD_COST ∧
    (gameTick cSpawnState cRnd).ants.length = 2 ∧
    ((gameTick cSpawnState cRnd).ants[1]?).map Ant.state = some AntState.explore ∧
    AntState.explore ≠ AntState.defend := by
  with_unfolding_all decide

/-- Witness for C4 at the concrete spawning game. -/
theorem C4_spawn_amended_witness :
    (gameTick cSpawnState cRnd).food = (tickCore cSpawnState).1.food - SPAWN_FOOD_COST ∧
    (gameTick cSpawnState cRnd).ants = (tickCore cSpawnState).2 ++
      [createAnt cSpawnState.nestPos cSpawnState.antIdCounter cRnd.spawnAngle cRnd.spawnDir
        cRnd.now] ∧
    (gameTick cSpawnState cRnd).antIdCounter = cSpawnState.antIdCounter + 1 ∧
    (createAnt cSpawnState.nestPos cSpawnState.antIdCounter cRnd.spawnAngle cRnd.spawnDir
      cRnd.now).pos = cSpawnState.nestPos ∧
    (createAnt cSpawnState.nestPos cSpawnState.antIdCounter cRnd.spawnAngle cRnd.spawnDir
      cRnd.now).state = AntState.explore ∧
    (∀ d : GlobalDirective, spawnStateD d =
      if d = GlobalDirective.defend then AntState.defend else AntState.explore) :=
  C4_spawn_amended cSpawnState cRnd rfl (by with_unfolding_all decide)
    (by with_unfolding_all decide)

/-- C5 (amended): across one logic tick of a running game the resource count
never drops by more than the spawn cost, and it is non-decreasing whenever the
tick spawns no ant — deliveries only add food, and the single possible
decrement is the spawn deduction. -/
theorem C5_food_monotone_amended (prev : GameState) (rnd : TickRnd)
    (hover : prev.gameOver = false) :
    prev.food - SPAWN_FOOD_COST ≤ (gameTick prev rnd).food ∧
    (¬(SPAWN_FOOD_COST ≤ (tickCore prev).1.food ∧
        (((tickCore prev).2.filter (fun (a : Ant) => a.isAlive)).length < MAX_ANTS)) →
      prev.food ≤ (gameTick prev rnd).food) := by
  have hcore : prev.food ≤ (tickCore prev).1.food := by
    unfold tickCore
    exact tickAnts_food_le prev.nestPos prev.directive prev.ants _
  constructor
  · by_cases hcond : SPAWN_FOOD_COST ≤ (tickCore prev).1.food ∧
        (((tickCore prev).2.filter (fun (a : Ant) => a.isAlive)).length < MAX_ANTS)
    · obtain ⟨h1, h2⟩ := hcond
      simp only [gameTick, hover, Bool.false_eq_true, if_false, ge_iff_le, h1, h2,
        and_self, ite_true]
      exact sub_le_sub_right hcore SPAWN_FOOD_COST
    · simp only [gameTick, hover, Bool.false_eq_true, if_false, ge_iff_le, hcond,
        ite_false]
      exact le_trans (sub_le_self prev.food (by norm_num [SPAWN_FOOD_COST])) hcore
  · intro hcond
    simp only [gameTick, hover, Bool.false_eq_true, if_false, ge_iff_le, hcond,
      ite_false]
    exact hcore

/-- Counterexample to C5 as stated: a tick that spawns an ant strictly lowers
the resource count. -/
theorem C5_food_decreases_counterexample :
    cSpawnState.gameOver = false ∧ (gameTick cSpawnState cRnd).food < cSpawnState.food := by
  with_unfolding_all decide

/-- Witness for C5 at the concrete spawning game. -/
theorem C5_food_monotone_amended_witness :
    cSpawnState.food - SPAWN_FOOD_COST ≤ (gameTick cSpawnState cRnd).food ∧
    (¬(SPAWN_FOOD_COST ≤ (tickCore cSpawnState).1.food ∧
        (((tickCore cSpawnState).2.filter (fun (a : Ant) => a.isAlive)).length < MAX_ANTS)) →
      cSpawnState.food ≤ (gameTick cSpawnState cRnd).food) :=
  C5_food_monotone_amended cSpawnState cRnd rfl

/-- C7 (amended): Dead is terminal — once alive is false it stays false: the
logic tick and the physics update leave a dead agent completely unchanged, and
a directive change never touches the alive flag; but a directive change does
rewrite the state field of every ant, dead ones included, so the stronger
claim that no operation modifies any field of a dead agent fails. -/
theorem C7_dead_absorbing_amended :
    (∀ (nestPos : Vec2) (d : GlobalDirective) (acc : TickAcc) (ant : Ant),
      ant.isAlive = false → processAnt nestPos d acc ant = (acc, ant)) ∧
    (∀ (ant : AntR) (stateForce : Vec2R) (newWanderAngle now : ℝ),
      ant.isAlive = false → updatePhysicsAnt ant stateForce newWanderAngle now = ant) ∧
    (∀ (prev : GameState) (d : GlobalDirective) (i : ℕ),
      ((setDirective prev d).ants[i]?).map Ant.isAlive =
        (prev.ants[i]?).map Ant.isAlive) ∧
    (∀ (prev : GameState) (rnd : TickRnd) (i : ℕ) (a : Ant),
      prev.ants[i]? = some a → a.isAlive = false →
      (gameTick prev rnd).ants[i]? = some a) := by
  refine ⟨processAnt_dead, ?_, ?_, ?_⟩
  · intro ant sf wa now h
    simp [updatePhysicsAnt, h]
  · intro prev d i
    simp only [setDirective, List.getElem?_map]
    cases prev.ants[i]? <;> rfl
  · intro prev rnd i a ha hdead
    by_cases hover : prev.gameOver = true
    · simp [gameTick, hover, ha]
    · have hb : prev.gameOver = false := by
        cases h : prev.gameOver
        · rfl
        · exact absurd h hover
      have hlen : i < prev.ants.length := by
        by_contra hlt
        rw [List.getElem?_eq_none (Nat.le_of_not_lt hlt)] at ha
        exact Option.noConfusion ha
      have hcore : (tickCore prev).2[i]? = some a := by
        unfold tickCore
        exact tickAnts_get?_dead prev.nestPos prev.directive prev.ants _ i a ha hdead
      have hcorelen : i < (tickCore prev).2.length := by
        unfold tickCore
        rw [tickAnts_length]
        exact hlen
      simp only [gameTick, hb, Bool.false_eq_true, if_false]
      by_cases hcond : SPAWN_FOOD_COST ≤ (tickCore prev).1.food ∧
          (((tickCore prev).2.filter (fun (a : Ant) => a.isAlive)).length < MAX_ANTS)
      · simp only [ge_iff_le, hcond, if_true, ite_true]
        rw [List.getElem?_append_left hcorelen]
        exact hcore
      · simp only [ge_iff_le, hcond, if_false, ite_false]
        rw [List.getElem?_append_left hcorelen]
        exact hcore

/-- Counterexample to C7 as stated: a directive change rewrites the state
field of a dead agent. -/
theorem C7_dead_modified_counterexample :
    cDeadAnt.isAlive = false ∧ cDeadAnt.state = AntState.explore ∧
    ((setDirective cDeadState GlobalDirective.defend).ants[0]?).map Ant.state =
      some AntState.defend ∧ AntState.defend ≠ AntState.explore := by
  with_unfolding_all decide

/-- Witness for C7: the logic tick carries a concrete dead ant through
unchanged. -/
theorem C7_dead_absorbing_amended_witness :
    (gameTick cDeadState cRnd).ants[0]? = some cDeadAnt :=
  C7_dead_absorbing_amended.2.2.2 cDeadState cRnd 0 cDeadAnt (by with_unfolding_all decide)
    (by with_unfolding_all decide)

/-- Vector lengths are nonnegative. -/
theorem lengthR_nonneg (v : Vec2R) : 0 ≤ lengthR v := Real.sqrt_nonneg _

/-- Length of a scaled vector. -/
theorem lengthR_scaleR (v : Vec2R) (s : ℝ) : lengthR (scaleR v s) = |s| * lengthR v := by
  unfold lengthR scaleR
  dsimp only
  rw [show v.x * s * (v.x * s) + v.y * s * (v.y * s) = s ^ 2 * (v.x * v.x + v.y * v.y) by
    ring]
  rw [Real.sqrt_mul (sq_nonneg s), Real.sqrt_sq_eq_abs]

/-- vec2.normalize yields a unit vector whenever the input has positive
length. -/
theorem lengthR_normalizeR {v : Vec2R} (h : 0 < lengthR v) : lengthR (normalizeR v) = 1 := by
  have hS : 0 < v.x * v.x + v.y * v.y := by
    have h' := h
    unfold lengthR at h'
    exact Real.sqrt_pos.mp h'
  unfold normalizeR
  rw [if_pos h]
  unfold lengthR at *
  dsimp only
  rw [div_mul_div_comm, div_mul_div_comm, div_add_div_same,
    Real.mul_self_sqrt (le_of_lt hS), div_self (ne_of_gt hS), Real.sqrt_one]

/-- vec2.limit bounds the length by the (nonnegative) cap. -/
theorem lengthR_limitR_le (v : Vec2R) {m : ℝ} (hm : 0 ≤ m) : lengthR (limitR v m) ≤ m := by
  unfold limitR
  split
  · rename_i hgt
    rw [lengthR_scaleR, lengthR_normalizeR (lt_of_le_of_lt hm hgt), mul_one,
      abs_of_nonneg hm]
  · rename_i hle
    exact le_of_not_lt hle

/-- The force cap is nonnegative. -/
theorem antMaxForce_nonneg : (0 : ℝ) ≤ ((ANT_MAX_FORCE : ℚ) : ℝ) := by
  norm_num [ANT_MAX_FORCE]

/-- The speed cap is nonnegative. -/
theorem antMaxSpeed_nonneg : (0 : ℝ) ≤ ((ANT_MAX_SPEED : ℚ) : ℝ) := by
  norm_num [ANT_MAX_SPEED]

/-- C8 (amended): each seek-based steering contribution is itself clamped to
maxForce inside steer.seek before weighting (so its magnitude is at most
|weight| * ANT_MAX_FORCE); the summed total is then clamped once more to
maxForce, velocity = clamp(velocity + force, maxSpeed), pos += velocity; and
consequently after every physics update each live agent's speed is at most
ANT_MAX_SPEED. -/
theorem C8_force_clamping_amended :
    (∀ (ant : AntR) (target : Vec2R) (w : ℝ),
      lengthR (seek ant target w) ≤ |w| * ((ANT_MAX_FORCE : ℚ) : ℝ)) ∧
    (∀ (ant : AntR) (stateForce : Vec2R) (wa now : ℝ), ant.isAlive = true →
      (updatePhysicsAnt ant stateForce wa now).velocity =
        limitR
          (addR ant.velocity
            (limitR (addR stateForce (avoidBorders ant)) ((ANT_MAX_FORCE : ℚ) : ℝ)))
          ((ANT_MAX_SPEED : ℚ) : ℝ) ∧
      lengthR (updatePhysicsAnt ant stateForce wa now).velocity ≤
        ((ANT_MAX_SPEED : ℚ) : ℝ)) := by
  constructor
  · intro ant target w
    unfold seek
    dsimp only
    rw [lengthR_scaleR]
    exact mul_le_mul_of_nonneg_left (lengthR_limitR_le _ antMaxForce_nonneg) (abs_nonneg w)
  · intro ant stateForce wa now halive
    constructor
    · simp [updatePhysicsAnt, halive]
    · have hv : (updatePhysicsAnt ant stateForce wa now).velocity =
          limitR
            (addR ant.velocity
              (limitR (addR stateForce (avoidBorders ant)) ((ANT_MAX_FORCE : ℚ) : ℝ)))
            ((ANT_MAX_SPEED : ℚ) : ℝ) := by
        simp [updatePhysicsAnt, halive]
      rw [hv]
      exact lengthR_limitR_le _ antMaxSpeed_nonneg

/-- Counterexample to C8 as stated: at a concrete resting ant one tile from
its target, the seek contribution the code computes is already clamped (its
x component is ANT_MAX_FORCE), differing from the unclamped contribution the
claim describes, whose magnitude exceeds ANT_MAX_FORCE. -/
theorem C8_per_contribution_clamp_counterexample :
    seek cAntR ⟨3, 2⟩ 1 ≠ seekUnclamped cAntR ⟨3, 2⟩ 1 ∧
    ((ANT_MAX_FORCE : ℚ) : ℝ) < lengthR (seekUnclamped cAntR ⟨3, 2⟩ 1) := by
  have hS : ((ANT_MAX_SPEED : ℚ) : ℝ) = 0.024 := by norm_num [ANT_MAX_SPEED]
  have hF : ((ANT_MAX_FORCE : ℚ) : ℝ) = 0.0012 := by norm_num [ANT_MAX_FORCE]
  have hdes : subR ⟨3, 2⟩ cAntR.pos = (⟨1, 0⟩ : Vec2R) := by
    show subR ⟨3, 2⟩ ⟨2, 2⟩ = (⟨1, 0⟩ : Vec2R)
    unfold subR
    norm_num
  have hlen1 : lengthR ⟨1, 0⟩ = 1 := by
    unfold lengthR
    norm_num
  have hnorm1 : normalizeR ⟨1, 0⟩ = (⟨1, 0⟩ : Vec2R) := by
    unfold normalizeR
    rw [hlen1]
    norm_num
  have hdesn : scaleR (⟨1, 0⟩ : Vec2R) ((ANT_MAX_SPEED : ℚ) : ℝ) =
      (⟨0.024, 0⟩ : Vec2R) := by
    unfold scaleR
    rw [hS]
    norm_num
  have hsteer : subR (⟨0.024, 0⟩ : Vec2R) cAntR.velocity = (⟨0.024, 0⟩ : Vec2R) := by
    show subR ⟨0.024, 0⟩ ⟨0, 0⟩ = (⟨0.024, 0⟩ : Vec2R)
    unfold subR
    norm_num
  have hlen24 : lengthR ⟨0.024, 0⟩ = 0.024 := by
    unfold lengthR
    dsimp only
    rw [show (0.024 : ℝ) * 0.024 + 0 * 0 = 0.024 ^ 2 by ring,
      Real.sqrt_sq (by norm_num)]
  have hnorm24 : normalizeR ⟨0.024, 0⟩ = (⟨1, 0⟩ : Vec2R) := by
    unfold normalizeR
    rw [hlen24]
    norm_num
  have hlim : limitR (⟨0.024, 0⟩ : Vec2R) ((ANT_MAX_FORCE : ℚ) : ℝ) =
      (⟨0.0012, 0⟩ : Vec2R) := by
    unfold limitR
    rw [hlen24, hF, if_pos (by norm_num), hnorm24]
    unfold scaleR
    norm_num
  have hseek : seek cAntR ⟨3, 2⟩ 1 = (⟨0.0012, 0⟩ : Vec2R) := by
    unfold seek
    dsimp only
    rw [hdes, hnorm1, hdesn, hsteer, hlim]
    unfold scaleR
    norm_num
  have hun : seekUnclamped cAntR ⟨3, 2⟩ 1 = (⟨0.024, 0⟩ : Vec2R) := by
    unfold seekUnclamped
    rw [hdes, hnorm1, hdesn, hsteer]
    unfold scaleR
    norm_num
  constructor
  · rw [hseek, hun]
    intro hcontra
    have hx := congrArg Vec2R.x hcontra
    norm_num at hx
  · rw [hun, hlen24, hF]
    norm_num

/-- Witness for C8: the concrete resting ant's post-update speed is within the
cap. -/
theorem C8_force_clamping_amended_witness :
    lengthR (updatePhysicsAnt cAntR ⟨0, 0⟩ 0 0).velocity ≤ ((ANT_MAX_SPEED : ℚ) : ℝ) :=
  (C8_force_clamping_amended.2 cAntR ⟨0, 0⟩ 0 0 rfl).2

/-- C10: after every physics update, every living agent's position is clamped
so that both coordinates lie within [1.2, WORLD_SIZE - 1.2]; whatever forces
were applied, an agent never occupies the outermost border band. -/
theorem C10_position_clamped (ant : AntR) (stateForce : Vec2R) (wa now : ℝ)
    (halive : ant.isAlive = true) :
    1.2 ≤ (updatePhysicsAnt ant stateForce wa now).pos.x ∧
    (updatePhysicsAnt ant stateForce wa now).pos.x ≤ ((WORLD_SIZE : ℚ) : ℝ) - 1.2 ∧
    1.2 ≤ (updatePhysicsAnt ant stateForce wa now).pos.y ∧
    (updatePhysicsAnt ant stateForce wa now).pos.y ≤ ((WORLD_SIZE : ℚ) : ℝ) - 1.2 := by
  have hW : (1.2 : ℝ) ≤ ((WORLD_SIZE : ℚ) : ℝ) - 1.2 := by norm_num [WORLD_SIZE]
  have hx : (updatePhysicsAnt ant stateForce wa now).pos.x =
      max 1.2 (min (((WORLD_SIZE : ℚ) : ℝ) - 1.2)
        (addR ant.pos
          (limitR
            (addR ant.velocity
              (limitR (addR stateForce (avoidBorders ant)) ((ANT_MAX_FORCE : ℚ) : ℝ)))
            ((ANT_MAX_SPEED : ℚ) : ℝ))).x) := by
    simp [updatePhysicsAnt, halive]
  have hy : (updatePhysicsAnt ant stateForce wa now).pos.y =
      max 1.2 (min (((WORLD_SIZE : ℚ) : ℝ) - 1.2)
        (addR ant.pos
          (limitR
            (addR ant.velocity
              (limitR (addR stateForce (avoidBorders ant)) ((ANT_MAX_FORCE : ℚ) : ℝ)))
            ((ANT_MAX_SPEED : ℚ) : ℝ))).y) := by
    simp [updatePhysicsAnt, halive]
  refine ⟨?_, ?_, ?_, ?_⟩
  · rw [hx]; exact le_max_left _ _
  · rw [hx]; exact max_le hW (min_le_left _ _)
  · rw [hy]; exact le_max_left _ _
  · rw [hy]; exact max_le hW (min_le_left _ _)

/-- Witness for C10 at the concrete resting ant. -/
theorem C10_position_clamped_witness :
    1.2 ≤ (updatePhysicsAnt cAntR ⟨0, 0⟩ 0 0).pos.x ∧
    (updatePhysicsAnt cAntR ⟨0, 0⟩ 0 0).pos.x ≤ ((WORLD_SIZE : ℚ) : ℝ) - 1.2 ∧
    1.2 ≤ (updatePhysicsAnt cAntR ⟨0, 0⟩ 0 0).pos.y ∧
    (updatePhysicsAnt cAntR ⟨0, 0⟩ 0 0).pos.y ≤ ((WORLD_SIZE : ℚ) : ℝ) - 1.2 :=
  C10_position_clamped cAntR ⟨0, 0⟩ 0 0 rfl

/-- An out-of-bounds corner contributes zero. -/
theorem sampleCorner_oob {map : Grid} {type : PherType} {tx ty : ℤ}
    (h : tx < 0 ∨ tx ≥ MAP_SIZE ∨ ty < 0 ∨ ty ≥ MAP_SIZE) :
    sampleCorner map type tx ty = 0 := if_pos h

/-- Sampling more than half a cell outside the grid reads only out-of-bounds
corners and returns 0, on any map. -/
theorem samplePheromone_far_outside (map : Grid) (pos : Vec2) (type : PherType)
    (h : pos.x < -(1 / 2) ∨ (MAP_SIZE : ℚ) + 1 / 2 < pos.x ∨
      pos.y < -(1 / 2) ∨ (MAP_SIZE : ℚ) + 1 / 2 < pos.y) :
    samplePheromone map pos type = 0 := by
  unfold samplePheromone
  dsimp only
  rcases h with h | h | h | h
  · have hx0 : ⌊pos.x - 0.5⌋ < -1 := by
      rw [Int.floor_lt]
      push_cast
      linarith
    rw [sampleCorner_oob (Or.inl (by omega)), sampleCorner_oob (Or.inl (by omega)),
      sampleCorner_oob (Or.inl (by omega)), sampleCorner_oob (Or.inl (by omega))]
    ring
  · have hx0 : MAP_SIZE ≤ ⌊pos.x - 0.5⌋ := by
      rw [Int.le_floor]
      linarith
    rw [sampleCorner_oob (Or.inr (Or.inl (by omega))),
      sampleCorner_oob (Or.inr (Or.inl (by omega))),
      sampleCorner_oob (Or.inr (Or.inl (by omega))),
      sampleCorner_oob (Or.inr (Or.inl (by omega)))]
    ring
  · have hy0 : ⌊pos.y - 0.5⌋ < -1 := by
      rw [Int.floor_lt]
      push_cast
      linarith
    rw [sampleCorner_oob (Or.inr (Or.inr (Or.inl (by omega)))),
      sampleCorner_oob (Or.inr (Or.inr (Or.inl (by omega)))),
      sampleCorner_oob (Or.inr (Or.inr (Or.inl (by omega)))),
      sampleCorner_oob (Or.inr (Or.inr (Or.inl (by omega))))]
    ring
  · have hy0 : MAP_SIZE ≤ ⌊pos.y - 0.5⌋ := by
      rw [Int.le_floor]
      linarith
    rw [sampleCorner_oob (Or.inr (Or.inr (Or.inr (by omega)))),
      sampleCorner_oob (Or.inr (Or.inr (Or.inr (by omega)))),
      sampleCorner_oob (Or.inr (Or.inr (Or.inr (by omega)))),
      sampleCorner_oob (Or.inr (Or.inr (Or.inr (by omega))))]
    ring

/-- vec2.normalize returns the zero vector or a unit vector. -/
theorem normalizeR_zero_or_unit (v : Vec2R) :
    lengthR (normalizeR v) = 0 ∨ lengthR (normalizeR v) = 1 := by
  by_cases h : lengthR v > 0
  · exact Or.inr (lengthR_normalizeR h)
  · left
    unfold normalizeR
    rw [if_neg h]
    unfold lengthR
    simp

/-- vec2.normalize of the zero vector is the zero vector. -/
theorem normalizeR_zeroVec : normalizeR ⟨0, 0⟩ = (⟨0, 0⟩ : Vec2R) := by
  have h0 : lengthR ⟨0, 0⟩ = 0 := by
    unfold lengthR
    simp
  unfold normalizeR
  rw [h0]
  norm_num

/-- C9 (amended): pheromone sampling is bilinear interpolation over the four
surrounding cell centers in which any out-of-bounds corner contributes 0;
positions more than half a cell outside the grid (beyond the interpolation
support) therefore sample 0 on any map, gradient queries there return the zero
vector, and every gradient is a zero or unit vector — queries never error.
Within the half-cell band just outside the grid an in-bounds corner can still
contribute, so sampling there need not be zero. -/
theorem C9_out_of_grid_amended :
    (∀ (map : Grid) (pos : Vec2) (type : PherType),
      (pos.x < -(1 / 2) ∨ (MAP_SIZE : ℚ) + 1 / 2 < pos.x ∨
        pos.y < -(1 / 2) ∨ (MAP_SIZE : ℚ) + 1 / 2 < pos.y) →
      samplePheromone map pos type = 0) ∧
    (∀ (map : Grid) (pos : Vec2) (type : PherType),
      (pos.x < -(4 / 5) ∨ (MAP_SIZE : ℚ) + 4 / 5 < pos.x ∨
        pos.y < -(4 / 5) ∨ (MAP_SIZE : ℚ) + 4 / 5 < pos.y) →
      getPheromoneGradient map pos type = ⟨0, 0⟩) ∧
    (∀ (map : Grid) (pos : Vec2) (type : PherType),
      lengthR (getPheromoneGradient map pos type) = 0 ∨
      lengthR (getPheromoneGradient map pos type) = 1) := by
  refine ⟨samplePheromone_far_outside, ?_, ?_⟩
  · intro map pos type h
    have hleft : samplePheromone map ⟨pos.x - 0.3, pos.y⟩ type = 0 := by
      apply samplePheromone_far_outside
      rcases h with h | h | h | h
      · exact Or.inl (by dsimp only; linarith)
      · exact Or.inr (Or.inl (by dsimp only; linarith))
      · exact Or.inr (Or.inr (Or.inl (by dsimp only; linarith)))
      · exact Or.inr (Or.inr (Or.inr (by dsimp only; linarith)))
    have hright : samplePheromone map ⟨pos.x + 0.3, pos.y⟩ type = 0 := by
      apply samplePheromone_far_outside
      rcases h with h | h | h | h
      · exact Or.inl (by dsimp only; linarith)
      · exact Or.inr (Or.inl (by dsimp only; linarith))
      · exact Or.inr (Or.inr (Or.inl (by dsimp only; linarith)))
      · exact Or.inr (Or.inr (Or.inr (by dsimp only; linarith)))
    have hup : samplePheromone map ⟨pos.x, pos.y - 0.3⟩ type = 0 := by
      apply samplePheromone_far_outside
      rcases h with h | h | h | h
      · exact Or.inl (by dsimp only; linarith)
      · exact Or.inr (Or.inl (by dsimp only; linarith))
      · exact Or.inr (Or.inr (Or.inl (by dsimp only; linarith)))
      · exact Or.inr (Or.inr (Or.inr (by dsimp only; linarith)))
    have hdown : samplePheromone map ⟨pos.x, pos.y + 0.3⟩ type = 0 := by
      apply samplePheromone_far_outside
      rcases h with h | h | h | h
      · exact Or.inl (by dsimp only; linarith)
      · exact Or.inr (Or.inl (by dsimp only; linarith))
      · exact Or.inr (Or.inr (Or.inl (by dsimp only; linarith)))
      · exact Or.inr (Or.inr (Or.inr (by dsimp only; linarith)))
    unfold getPheromoneGradient
    dsimp only
    rw [hleft, hright, hup, hdown]
    norm_num [normalizeR_zeroVec]
  · intro map pos type
    unfold getPheromoneGradient
    dsimp only
    exact normalizeR_zero_or_unit _

/-- Counterexample to C9 as stated: at the position (-0.2, 5.5), outside the
grid, bilinear sampling blends the in-bounds boundary cell (5, 0) and returns
0.3, not zero. -/
theorem C9_blend_band_counterexample :
    (-0.2 : ℚ) < 0 ∧
    samplePheromone cPherMap ⟨-0.2, 5.5⟩ PherType.food = 0.3 ∧
    (0.3 : ℚ) ≠ 0 := by
  with_unfolding_all decide

/-- Witness for C9: far outside the grid a concrete sample is zero and the
gradient vanishes. -/
theorem C9_out_of_grid_amended_witness :
    samplePheromone flatGrid ⟨-5, 3⟩ PherType.food = 0 ∧
    getPheromoneGradient flatGrid ⟨-5, 3⟩ PherType.home = ⟨0, 0⟩ :=
  ⟨C9_out_of_grid_amended.1 flatGrid ⟨-5, 3⟩ PherType.food (Or.inl (by norm_num)),
    C9_out_of_grid_amended.2.1 flatGrid ⟨-5, 3⟩ PherType.home (Or.inl (by norm_num))⟩

-- Preservation of the pheromone bounds (claim C3).

/-- Decay keeps a tile's channels in [0, 1]. -/
theorem pherBounded_decayTile {t : Tile} (h : pherBounded t) : pherBounded (decayTile t) := by
  obtain ⟨h1, h2, h3, h4⟩ := h
  unfold decayTile PHEROMONE_DECAY
  refine ⟨le_max_left _ _, max_le (by norm_num) (by linarith), le_max_left _ _,
    max_le (by norm_num) (by linarith)⟩

/-- Decay keeps the whole grid in bounds. -/
theorem gridBounded_decayMap {g : Grid} (hg : GridBounded g) : GridBounded (decayMap g) :=
  fun y x => pherBounded_decayTile (hg y x)

/-- A single-cell update with a bounds-preserving tile function keeps the grid
in bounds. -/
theorem gridBounded_updateCell {g : Grid} {y x : ℤ} {f : Tile → Tile}
    (hg : GridBounded g) (hf : ∀ t, pherBounded t → pherBounded (f t)) :
    GridBounded (updateCell g y x f) := by
  intro y' x'
  unfold updateCell
  split
  · exact hf _ (hg y' x')
  · exact hg y' x'

/-- Reinforcement with a cap at most 1 keeps a tile in bounds. -/
theorem pherBounded_reinforceTile {c : ℚ} (hc : c ≤ 1) {t : Tile} (h : pherBounded t) :
    pherBounded (reinforceTile c t) := by
  obtain ⟨h1, h2, h3, h4⟩ := h
  exact ⟨le_trans h1 (le_max_left _ _), max_le h2 hc, h3, h4⟩

/-- The ambient food deposit keeps a tile in bounds. -/
theorem pherBounded_depositFood {t : Tile} (h : pherBounded t) :
    pherBounded (depositFood t) := by
  obtain ⟨h1, h2, h3, h4⟩ := h
  unfold depositFood PHEROMONE_DEPOSIT_RATE
  exact ⟨h1, h2, le_min (by norm_num) (by linarith), min_le_left _ _⟩

/-- The ambient home deposit keeps a tile in bounds. -/
theorem pherBounded_depositHome {t : Tile} (h : pherBounded t) :
    pherBounded (depositHome t) := by
  obtain ⟨h1, h2, h3, h4⟩ := h
  unfold depositHome PHEROMONE_DEPOSIT_RATE
  exact ⟨le_min (by norm_num) (by linarith), min_le_left _ _, h3, h4⟩

/-- The food-source marker keeps a tile in bounds. -/
theorem pherBounded_markFoodSource {t : Tile} (h : pherBounded t) :
    pherBounded (markFoodSource t) := by
  obtain ⟨h1, h2, _, _⟩ := h
  unfold markFoodSource
  exact ⟨h1, h2, by norm_num, le_refl 1⟩

/-- Revealing keeps a tile in bounds. -/
theorem pherBounded_revealTile {t : Tile} (h : pherBounded t) :
    pherBounded (revealTile t) := h

/-- A fold of bounds-preserving grid steps keeps the grid in bounds. -/
theorem gridBounded_foldl {α : Type} {f : Grid → α → Grid}
    (hstep : ∀ (g : Grid) (a : α), GridBounded g → GridBounded (f g a)) :
    ∀ (l : List α) (g : Grid), GridBounded g → GridBounded (l.foldl f g) := by
  intro l
  induction l with
  | nil => exact fun g hg => hg
  | cons a rest ih => exact fun g hg => ih _ (hstep g a hg)

/-- One reinforcement-loop iteration keeps the grid in bounds. -/
theorem gridBounded_reinforceStep (nx ny : ℤ) {g : Grid} (d : ℤ × ℤ)
    (hg : GridBounded g) : GridBounded (reinforceStep nx ny g d) := by
  unfold reinforceStep
  dsimp only
  split
  · apply gridBounded_updateCell hg
    intro t ht
    apply pherBounded_reinforceTile ?_ ht
    have ha' : (0 : ℚ) ≤ (|(d.2 : ℚ)|) * 0.15 := by positivity
    have hb' : (0 : ℚ) ≤ (|(d.1 : ℚ)|) * 0.15 := by positivity
    linarith
  · exact hg

/-- The nest reinforcement keeps the grid in bounds. -/
theorem gridBounded_reinforceNest {g : Grid} (nestPos : Vec2) (hg : GridBounded g) :
    GridBounded (reinforceNest g nestPos) := by
  unfold reinforceNest
  exact gridBounded_foldl (fun g d hg => gridBounded_reinforceStep _ _ d hg) _ _ hg

/-- Revealing a trail keeps the grid in bounds. -/
theorem gridBounded_revealTrail {g : Grid} (trail : List Vec2) (hg : GridBounded g) :
    GridBounded (revealTrail g trail) := by
  unfold revealTrail
  apply gridBounded_foldl ?_ _ _ hg
  intro g' p hg'
  dsimp only
  split
  · exact gridBounded_updateCell hg' fun t ht => pherBounded_revealTile ht
  · exact hg'

/-- The per-agent step keeps the grid in bounds. -/
theorem gridBounded_processAnt (nestPos : Vec2) (d : GlobalDirective) {acc : TickAcc}
    (ant : Ant) (hg : GridBounded acc.map) :
    GridBounded (processAnt nestPos d acc ant).1.map := by
  unfold processAnt
  split
  · exact hg
  · split
    · exact hg
    · dsimp only
      have hm1 : GridBounded
          (if 0 ≤ ⌊ant.pos.x⌋ ∧ ⌊ant.pos.x⌋ < MAP_SIZE ∧
              0 ≤ ⌊ant.pos.y⌋ ∧ ⌊ant.pos.y⌋ < MAP_SIZE then
            updateCell
              (if ant.carriedInfo = some CarriedInfo.food then
                updateCell acc.map ⌊ant.pos.y⌋ ⌊ant.pos.x⌋ depositFood
              else acc.map)
              ⌊ant.pos.y⌋ ⌊ant.pos.x⌋ depositHome
          else acc.map) := by
        split
        · apply gridBounded_updateCell ?_ fun t ht => pherBounded_depositHome ht
          split
          · exact gridBounded_updateCell hg fun t ht => pherBounded_depositFood ht
          · exact hg
        · exact hg
      split
      · exact hm1
      · dsimp only
        split
        · apply gridBounded_revealTrail
          split
          · exact gridBounded_updateCell hm1 fun t ht => pherBounded_markFoodSource ht
          · exact hm1
        · split
          · exact gridBounded_updateCell hm1 fun t ht => pherBounded_markFoodSource ht
          · exact hm1

/-- The ant loop keeps the grid in bounds. -/
theorem gridBounded_tickAnts (nestPos : Vec2) (d : GlobalDirective) :
    ∀ (l : List Ant) (acc : TickAcc), GridBounded acc.map →
      GridBounded (tickAnts nestPos d acc l).1.map := by
  intro l
  induction l with
  | nil => exact fun acc hg => hg
  | cons a rest ih =>
    intro acc hg
    exact ih _ (gridBounded_processAnt nestPos d a hg)

/-- The tick core keeps the grid in bounds. -/
theorem gridBounded_tickCore {prev : GameState} (hg : GridBounded prev.map) :
    GridBounded (tickCore prev).1.map := by
  unfold tickCore
  exact gridBounded_tickAnts prev.nestPos prev.directive prev.ants _
    (gridBounded_reinforceNest prev.nestPos (gridBounded_decayMap hg))

/-- One game tick keeps the grid in bounds. -/
theorem gridBounded_gameTick {prev : GameState} (rnd : TickRnd)
    (hg : GridBounded prev.map) : GridBounded (gameTick prev rnd).map := by
  unfold gameTick
  split
  · exact hg
  · dsimp only
    exact gridBounded_tickCore hg

/-- Every freshly parsed tile is in bounds. -/
theorem pherBounded_initTile (ty : TileType) : pherBounded (initTile ty) := by
  unfold initTile pherBounded
  dsimp only
  split_ifs <;> norm_num

/-- The parsed grid is in bounds. -/
theorem gridBounded_gridOfTypes (rows : List (List TileType)) :
    GridBounded (gridOfTypes rows) := by
  intro y x
  unfold gridOfTypes
  split
  · cases h1 : rows.get? y.toNat with
    | none => exact pherBounded_initTile TileType.ground
    | some r =>
      dsimp only
      cases h2 : r.get? x.toNat with
      | none => exact pherBounded_initTile TileType.ground
      | some ty =>
        dsimp only
        exact pherBounded_initTile ty
  · exact pherBounded_initTile TileType.ground

/-- The nest-area reveal pass keeps the grid in bounds. -/
theorem gridBounded_revealNestArea {g : Grid} (nestPos : Vec2) (hg : GridBounded g) :
    GridBounded (revealNestArea g nestPos) := by
  unfold revealNestArea
  apply gridBounded_foldl ?_ _ _ hg
  intro g' d hg'
  dsimp only
  split
  · apply gridBounded_updateCell hg'
    intro t ht
    obtain ⟨_, _, h3, h4⟩ := ht
    have ha' : (0 : ℚ) ≤ (|(d.2 : ℚ)|) * 0.2 := by positivity
    have hb' : (0 : ℚ) ≤ (|(d.1 : ℚ)|) * 0.2 := by positivity
    refine ⟨le_trans (by norm_num) (le_max_left _ _), max_le (by norm_num) (by linarith),
      h3, h4⟩
  · exact hg'

/-- The initial grid is in bounds. -/
theorem gridBounded_initGame (angle : ℚ) (dir : Vec2) (now : ℚ) :
    GridBounded (initGame angle dir now).map := by
  unfold initGame parseMapTemplate
  dsimp only
  exact gridBounded_revealNestArea _ (gridBounded_gridOfTypes _)

/-- C3: For every cell and at every state reachable from the initial state,
both pheromone channels stay within bounds: 0 ≤ homePheromone ≤ 1 and
0 ≤ foodPheromone ≤ 1; decay clamps below at 0 and every deposit clamps above
at 1. -/
theorem C3_pheromone_bounds {s : GameState} (h : Reachable s) : GridBounded s.map := by
  induction h with
  | init angle dir now => exact gridBounded_initGame angle dir now
  | tick rnd _ ih => exact gridBounded_gameTick rnd ih
  | ui ants d _ ih => exact ih

/-- Witness for C3 at the freshly initialized game. -/
theorem C3_pheromone_bounds_witness : GridBounded (initGame 0 ⟨1, 0⟩ 0).map :=
  C3_pheromone_bounds (Reachable.init 0 ⟨1, 0⟩ 0)

end Ants
